import Mathlib

/-!
Shallow embedding of the content-addressable version-control core in
src/git.py, together with theorems settling the specification claims.

Modelling conventions:
* Python byte strings are `List Nat` (one value per byte).
* The filesystem is an explicit snapshot (`FS`): the set of directories that
  exist and an association list from file path to contents.  `open`, reads,
  writes and `os.listdir` are explicit functions on it.
* Python exceptions are the `PyErr` inductive; functions that can raise
  return `Except PyErr _`.  Exception messages keep the distinguishing words
  of the originals but drop `repr` quoting and interpolated counts.
* Library functions whose internals the program never depends on
  (SHA-1, zlib compression, difflib's hunk builder) are taken as explicit
  function parameters of the definitions that use them, mirroring their use
  as opaque pure functions.
-/

namespace PyGit

/-- Python byte strings: one `Nat` per byte. -/
abbrev ByteList := List Nat

/-- The Python exceptions this program can raise, by class.
`valueError` also carries the start of the message so that the distinct
`ValueError`s raised by `find_object` and by `open` stay distinguishable. -/
inductive PyErr where
  | valueError (msg : String)
  | fileNotFoundError (path : String)
  | nameError (msg : String)
  | assertionError (msg : String)
  | structError (msg : String)
  | typeError (msg : String)
  | keyError (msg : String)
deriving Repr, DecidableEq

/-- A filesystem snapshot: the directories that exist, and the regular files
(path, contents).  Earlier entries in `files` shadow later ones, so writing
is consing. -/
structure FS where
  dirs : List String
  files : List (String × ByteList)
deriving Repr, DecidableEq

/-- Contents of the regular file at `p`, if it exists. -/
def FS.lookupFile (fs : FS) (p : String) : Option ByteList :=
  (fs.files.find? (fun kv => kv.1 == p)).map (fun kv => kv.2)

/-- Model: `write_file` (src/git.py lines 15-17): open for writing truncates or
creates, so the new pair shadows any previous one. -/
def FS.writeFile (fs : FS) (p : String) (data : ByteList) : FS :=
  { fs with files := (p, data) :: fs.files }

/-- Model: `os.makedirs(d, exist_ok=True)` restricted to the leaf directory, which is
the only one later operations consult. -/
def FS.mkdirs (fs : FS) (d : String) : FS :=
  if fs.dirs.contains d then fs else { fs with dirs := d :: fs.dirs }

/-- Model: `s[:n]` on text.  (Implemented over the character list so that it
computes by kernel reduction; the paths and ids involved are ASCII.) -/
def strTake (s : String) (n : Nat) : String := String.mk (s.toList.take n)

/-- Model: `s[n:]` on text. -/
def strDropN (s : String) (n : Nat) : String := String.mk (s.toList.drop n)

/-- Model: `s.startswith(t)`. -/
def strStartsWith (s t : String) : Bool := t.toList.isPrefixOf s.toList

/-- Split a character list at every occurrence of `c` (`str.split(c)`). -/
def splitOnChar (c : Char) : List Char → List (List Char)
  | [] => [[]]
  | x :: xs =>
    let r := splitOnChar c xs
    if x = c then [] :: r
    else
      match r with
      | [] => [[x]]
      | h :: t => (x :: h) :: t

/-- Model: `str.split(c)` for a one-character separator. -/
def strSplitOnChar (s : String) (c : Char) : List String :=
  (splitOnChar c s.toList).map String.mk

/-- Join path components with slashes (`"/".join`). -/
def joinWith (sep : String) : List String → String
  | [] => ""
  | [x] => x
  | x :: xs => x ++ sep ++ joinWith sep xs

/-- The directory part of a path (text before the final slash). -/
def parentDir (p : String) : String :=
  joinWith "/" ((strSplitOnChar p '/').dropLast)

/-- The final component of a path. -/
def baseName (p : String) : String :=
  (strSplitOnChar p '/').getLastD ""

/-- Model: `os.listdir d`: the names of the entries directly inside `d`;
`FileNotFoundError` when the directory does not exist.  (The directories of
interest, object buckets, only ever contain regular files.) -/
def FS.listdir (fs : FS) (d : String) : Except PyErr (List String) :=
  if d ∈ fs.dirs then
    .ok ((fs.files.filter (fun kv => parentDir kv.1 == d)).map (fun kv => baseName kv.1))
  else .error (.fileNotFoundError d)

/-- CPython validates the mode string of `open` before touching the
filesystem: a character outside `"axrwb+t"` or a repeated character raises
`ValueError: invalid mode`.  (`_pyio.open`: `modes - set("axrwb+t")` nonempty
or `len(mode) > len(modes)`.) -/
def validOpenMode (mode : String) : Bool :=
  mode.toList.all (fun c => ['a', 'x', 'r', 'w', 'b', '+', 't'].contains c) &&
    decide mode.toList.Nodup

/-- Model: `open(path, mode)` for reading followed by `f.read()`: the mode string is
validated first (so an invalid mode raises `ValueError` even for a missing
file), then a missing file raises `FileNotFoundError`. -/
def pyOpenRead (fs : FS) (path mode : String) : Except PyErr ByteList :=
  if validOpenMode mode then
    match fs.lookupFile path with
    | some data => .ok data
    | none => .error (.fileNotFoundError path)
  else
    .error (.valueError ("invalid mode: " ++ mode))

/-- Model: `read_file` (src/git.py lines 10-12): opens with the mode string `"rr"`,
which CPython rejects as invalid. -/
def read_file (fs : FS) (path : String) : Except PyErr ByteList :=
  pyOpenRead fs path "rr"

/-- The mode string `"rr"` fails CPython's mode validation. -/
theorem validOpenMode_rr : validOpenMode "rr" = false := by decide

/-- Fact: `read_file` raises `ValueError: invalid mode: rr` on every filesystem and
every path, before any filesystem access. -/
theorem read_file_eq_error (fs : FS) (path : String) :
    read_file fs path = .error (.valueError "invalid mode: rr") := rfl

/-- Model: `str.encode()` for the ASCII text this program builds. -/
def strToBytes (s : String) : ByteList := s.toList.map Char.toNat

/-- Model: `bytes.decode()` restricted to the code points a list of bytes carries. -/
def bytesToStr (bs : ByteList) : String := String.mk (bs.map Char.ofNat)

/-- One lowercase hex digit. -/
def hexDigit (n : Nat) : Char :=
  if n < 10 then Char.ofNat (48 + n) else Char.ofNat (87 + n)

/-- Model: `bytes.hex()`: two lowercase hex digits per byte. -/
def bytesToHex (bs : ByteList) : String :=
  String.mk (bs.foldr (fun b acc => hexDigit (b % 256 / 16) :: hexDigit (b % 16) :: acc) [])

/-- Model: `hash_object` (src/git.py lines 30-42).  `sha1hex` stands for
`hashlib.sha1(.).hexdigest()` and `zcompress` for `zlib.compress`, both pure.
Returns the hex id, the filesystem afterwards, and how many object files the
call wrote (0 or 1): the object is written only when `write` is true and no
file exists at its path yet. -/
def hash_object (sha1hex : ByteList → String) (zcompress : ByteList → ByteList)
    (fs : FS) (data : ByteList) (obj_type : String) (write : Bool) :
    String × FS × Nat :=
  let header := strToBytes (obj_type ++ " " ++ toString data.length)
  let full_data := header ++ 0 :: data
  let sha1 := sha1hex full_data
  if write then
    let dir := ".git/objects/" ++ strTake sha1 2
    let path := dir ++ "/" ++ strDropN sha1 2
    if (fs.lookupFile path).isNone then
      (sha1, (fs.mkdirs dir).writeFile path (zcompress full_data), 1)
    else (sha1, fs, 0)
  else (sha1, fs, 0)

/-- Model: `find_object` (src/git.py lines 44-56).  `sha1pre` is the source's
`sha1_prefix` argument.  A prefix shorter than two characters raises
`ValueError`; otherwise the bucket directory named by the first two characters
is listed (`os.listdir` raises `FileNotFoundError` when that directory does
not exist), candidates are the listed names starting with the rest of the
prefix, and zero or two-or-more candidates raise `ValueError`. -/
def find_object (fs : FS) (sha1pre : String) : Except PyErr String :=
  if sha1pre.length < 2 then
    .error (.valueError "hash prefix must be 2 or more characters")
  else
    let obj_dir := ".git/objects/" ++ strTake sha1pre 2
    let rest := strDropN sha1pre 2
    match fs.listdir obj_dir with
    | .error e => .error e
    | .ok names =>
      match names.filter (fun n => strStartsWith n rest) with
      | [] => .error (.valueError ("object " ++ sha1pre ++ " not found"))
      | [o] => .ok (obj_dir ++ "/" ++ o)
      | _ => .error (.valueError ("multiple objects with preifx " ++ sha1pre))

/-- Model: `read_object` (src/git.py lines 58-68).  `zdecompress` stands for
`zlib.decompress`.  After `find_object`, the compressed file is read with
`read_file`; the remainder of the body mirrors the source: find the first
null byte (`bytes.index` raises `ValueError` when absent), split the header,
`str.split()` it into exactly two fields, parse the size, and assert it
equals the content length. -/
def read_object (zdecompress : ByteList → ByteList) (fs : FS) (sha1pre : String) :
    Except PyErr (String × ByteList) :=
  match find_object fs sha1pre with
  | .error e => .error e
  | .ok path =>
    match read_file fs path with
    | .error e => .error e
    | .ok raw =>
      let full_data := zdecompress raw
      match full_data.findIdx? (fun b => b == 0) with
      | none => .error (.valueError "subsection not found")
      | some nul_index =>
        let header := full_data.take nul_index
        -- `str.split()` splits on whitespace runs, discarding empty pieces;
        -- headers only ever contain spaces.
        match (strSplitOnChar (bytesToStr header) ' ').filter
            (fun t => t ≠ "") with
        | [obj_type, str_size] =>
          match str_size.toNat? with
          | none => .error (.valueError "invalid literal for int")
          | some size =>
            let data := full_data.drop (nul_index + 1)
            if size = data.length then .ok (obj_type, data)
            else .error (.assertionError "expected size")
        | _ => .error (.valueError "not enough values to unpack")

/-- Model: `cat_file` (src/git.py lines 70-91), returning the lines or raw payloads
it would print.  The program defines no function named `read_tree`, so the
`pretty`-mode branch for trees raises `NameError` at the moment the call
would execute, printing no entry lines. -/
def cat_file (zdecompress : ByteList → ByteList) (fs : FS)
    (mode : String) (sha1pre : String) : Except PyErr (List String) :=
  match read_object zdecompress fs sha1pre with
  | .error e => .error e
  | .ok (obj_type, data) =>
    if mode = "commit" ∨ mode = "tree" ∨ mode = "blob" then
      if obj_type ≠ mode then
        .error (.valueError ("expected object type " ++ mode ++ ", got " ++ obj_type))
      else .ok [bytesToStr data]
    else if mode = "size" then .ok [toString data.length]
    else if mode = "type" then .ok [obj_type]
    else if mode = "pretty" then
      if obj_type = "commit" ∨ obj_type = "blob" then .ok [bytesToStr data]
      else if obj_type = "tree" then
        .error (.nameError "name read_tree is not defined")
      else .error (.assertionError ("unhandled object type " ++ obj_type))
    else .error (.valueError ("unexpected mode " ++ mode))

/-- The `IndexEntry` namedtuple (src/git.py lines 93-96).  `sha1` is the raw
20-byte digest field. -/
structure IndexEntry where
  ctime_s : Nat
  ctime_n : Nat
  mtime_s : Nat
  mtime_n : Nat
  dev : Nat
  ino : Nat
  mode : Nat
  uid : Nat
  gid : Nat
  size : Nat
  sha1 : ByteList
  flags : Nat
  path : String
deriving Repr, DecidableEq

/-- Byte at offset `i` (0 when out of range; `struct.unpack` slices are
in range wherever the loop reaches them). -/
def byteAt (bs : ByteList) (i : Nat) : Nat := bs.getD i 0

/-- Big-endian 32-bit unsigned integer at offset `i` (`struct` format `L`). -/
def beU32At (bs : ByteList) (i : Nat) : Nat :=
  ((byteAt bs i * 256 + byteAt bs (i + 1)) * 256 + byteAt bs (i + 2)) * 256
    + byteAt bs (i + 3)

/-- Model: `struct.unpack` with format `!LLLLLLLLLL20sH` applied to a 62-byte block,
plus the decoded path (src/git.py lines 114-118). -/
def decodeEntry (block : ByteList) (path : String) : IndexEntry :=
  { ctime_s := beU32At block 0
    ctime_n := beU32At block 4
    mtime_s := beU32At block 8
    mtime_n := beU32At block 12
    dev := beU32At block 16
    ino := beU32At block 20
    mode := beU32At block 24
    uid := beU32At block 28
    gid := beU32At block 32
    size := beU32At block 36
    sha1 := (block.drop 40).take 20
    flags := byteAt block 60 * 256 + byteAt block 61
    path := path }

/-- Model: `bytes.index(0, start)`: offset of the first null byte at or after
`start`, if any. -/
def findNulFrom (bs : ByteList) (start : Nat) : Option Nat :=
  ((bs.drop start).findIdx? (fun b => b == 0)).map (fun j => j + start)

/-- The entry-decoding loop of `read_index` (src/git.py lines 111-121):
while 62 bytes of fixed fields fit, unpack them, read the null-terminated
path, and advance to the next 8-byte-aligned boundary. -/
def read_index_entries (entry_data : ByteList) (i : Nat) (acc : List IndexEntry) :
    Except PyErr (List IndexEntry) :=
  if _h : i + 62 < entry_data.length then
    let fields_end := i + 62
    match findNulFrom entry_data fields_end with
    | none => .error (.valueError "subsection not found")
    | some path_end =>
      let pathBytes := (entry_data.take path_end).drop fields_end
      let entry := decodeEntry ((entry_data.take fields_end).drop i)
        (bytesToStr pathBytes)
      let entry_len := (62 + pathBytes.length + 8) / 8 * 8
      read_index_entries entry_data (i + entry_len) (acc ++ [entry])
  else .ok acc
termination_by entry_data.length - i
decreasing_by
  omega

/-- Model: `read_index` (src/git.py lines 98-123).  `sha1digest` stands for
`hashlib.sha1(.).digest()`.  The `try` block wraps only the `read_file`
call and its handler catches only `FileNotFoundError` (returning the empty
entry list); any other exception propagates.  The body then checks the
trailing checksum, the `DIRC` signature and version 2, decodes the entries,
and asserts the declared entry count. -/
def read_index (sha1digest : ByteList → ByteList) (fs : FS) :
    Except PyErr (List IndexEntry) :=
  match read_file fs ".git/index" with
  | .error (.fileNotFoundError _) => .ok []
  | .error e => .error e
  | .ok data =>
    let digest := sha1digest (data.take (data.length - 20))
    if digest ≠ data.drop (data.length - 20) then
      .error (.assertionError "invalid index checksum")
    else if data.length < 12 then
      .error (.structError "unpack requires a buffer of 12 bytes")
    else if data.take 4 ≠ strToBytes "DIRC" then
      .error (.assertionError "invalid index signature")
    else if beU32At data 4 ≠ 2 then
      .error (.assertionError "unknown index version")
    else
      match read_index_entries ((data.take (data.length - 20)).drop 12) 0 [] with
      | .error e => .error e
      | .ok entries =>
        if entries.length = beU32At data 8 then .ok entries
        else .error (.assertionError "entry count")

/-- The stage computation of `ls_files` (src/git.py line 128):
`(entry.flags >> 12) & 3`. -/
def stageOf (flags : Nat) : Nat := flags >>> 12 &&& 3

/-- Left-pad with spaces to width `w` (the `{:6o}` field width). -/
def padLeft (s : String) (w : Nat) : String :=
  String.mk (List.replicate (w - s.length) ' ') ++ s

/-- Octal rendering of a natural number (`{:o}`). -/
def toOctal (n : Nat) : String := String.mk (Nat.toDigits 8 n)

/-- The loop body of `ls_files` (src/git.py lines 126-132) applied to decoded
entries: with `details` set, mode in octal, hex id, stage and path. -/
def ls_files_lines (details : Bool) (entries : List IndexEntry) : List String :=
  entries.map (fun entry =>
    if details then
      padLeft (toOctal entry.mode) 6 ++ " " ++ bytesToHex entry.sha1 ++ " " ++
        toString (stageOf entry.flags) ++ "\t" ++ entry.path
    else entry.path)

/-- Model: `ls_files` (src/git.py lines 125-132), returning the printed lines. -/
def ls_files (sha1digest : ByteList → ByteList) (fs : FS) (details : Bool) :
    Except PyErr (List String) :=
  match read_index sha1digest fs with
  | .error e => .error e
  | .ok entries => .ok (ls_files_lines details entries)

/-- Fact: `read_index` always raises `ValueError: invalid mode: rr`: the mode
validation inside `read_file` fires before the file is looked up, so even a
missing index file does not reach the `FileNotFoundError` handler. -/
theorem read_index_eq_error (sha1digest : ByteList → ByteList) (fs : FS) :
    read_index sha1digest fs = .error (.valueError "invalid mode: rr") := rfl

/-- Python `sorted` on strings (lexicographic). -/
def sortStrings (l : List String) : List String := l.insertionSort (fun a b => a ≤ b)

/-- The path-collection steps of one `os.walk` iteration (src/git.py lines
138-143): `os.path.join(root, file)`, backslash normalization, and the
truncation `path = path[:2]` applied to every path starting with `"./"`
(the source keeps only the first two characters instead of dropping them).
`paths` is a set in the source; it is modelled as a duplicate-free list in
insertion order. -/
def walk_paths (root : String) (files : List String) (paths : List String) :
    List String :=
  files.foldl (fun acc file =>
    -- `path.replace("\\", "/")` replaces single characters, so it is a map.
    let path := String.mk ((root ++ "/" ++ file).toList.map
      (fun c => if c = '\\' then '/' else c))
    let path := if strStartsWith path "./" then strTake path 2 else path
    if acc.contains path then acc else acc ++ [path]) paths

/-- Last-binding lookup, as in the dict comprehension
`{e.path: e for e in read_index()}` where a later entry shadows an earlier
one with the same path. -/
def lookupLast (entries : List IndexEntry) (p : String) : Option IndexEntry :=
  (entries.reverse.find? (fun e => e.path == p)).map id

/-- Model: `get_status` (src/git.py lines 134-151).  `walk` is the sequence of
`(root, dirs, files)` triples `os.walk(".")` would yield.  The `read_index`
call, the three set computations and the `return` statement are all inside
the `for root, dirs, files` loop body in the source, so only the first
iteration is ever processed (the `.git` pruning of `dirs` therefore never
influences anything); an empty walk falls off the loop and returns `None`,
modelled as `.ok none`.  The `changed` comprehension hashes
`read_file(p)` with `write=False` for every path in the intersection. -/
def get_status (sha1hex : ByteList → String) (sha1digest : ByteList → ByteList)
    (zcompress : ByteList → ByteList) (fs : FS)
    (walk : List (String × List String × List String)) :
    Except PyErr (Option (List String × List String × List String)) :=
  match walk with
  | [] => .ok none
  | (root, _dirs, files) :: _ =>
    let paths := walk_paths root files []
    match read_index sha1digest fs with
    | .error e => .error e
    | .ok entries =>
      let entry_paths := (entries.map (fun e => e.path)).eraseDups
      let inter := paths.filter (fun p => entry_paths.contains p)
      match inter.foldlM (fun acc p =>
          match read_file fs p with
          | .error e => Except.error e
          | .ok content =>
            let h := (hash_object sha1hex zcompress fs content "blob" false).1
            let stored := match lookupLast entries p with
              | some e => bytesToHex e.sha1
              | none => ""
            Except.ok (if h ≠ stored then acc ++ [p] else acc)) [] with
      | .error e => .error e
      | .ok changed =>
        let newPaths := paths.filter (fun p => ¬ entry_paths.contains p)
        let deleted := entry_paths.filter (fun p => ¬ paths.contains p)
        .ok (some (sortStrings changed, sortStrings newPaths, sortStrings deleted))

/-- Model: `str.splitlines()` for `\n`-separated text (the only separator the data
model produces). -/
def splitlines (s : String) : List String :=
  let parts := strSplitOnChar s '\n'
  if parts.getLastD "" = "" then parts.dropLast else parts

/-- The separator printed between changed files: `'-' * 70`. -/
def sepLine : String := String.mk (List.replicate 70 '-')

/-- Model: `diff` (src/git.py lines 168-185), returning the printed lines.
`udiff` stands for `difflib.unified_diff` with `lineterm=''` applied to the
two line lists and the two labels.  Unpacking the `None` that `get_status`
returns for an empty walk would raise `TypeError`. -/
def diff (sha1hex : ByteList → String) (sha1digest : ByteList → ByteList)
    (zcompress : ByteList → ByteList) (zdecompress : ByteList → ByteList)
    (udiff : List String → List String → String → String → List String)
    (fs : FS) (walk : List (String × List String × List String)) :
    Except PyErr (List String) :=
  match get_status sha1hex sha1digest zcompress fs walk with
  | .error e => .error e
  | .ok none => .error (.typeError "cannot unpack non-iterable NoneType object")
  | .ok (some (changed, _, _)) =>
    match read_index sha1digest fs with
    | .error e => .error e
    | .ok entries =>
      (changed.enum.foldlM (fun acc ip =>
        match lookupLast entries ip.2 with
        | none => Except.error (.keyError ip.2)
        | some e =>
          match read_object zdecompress fs (bytesToHex e.sha1) with
          | .error er => Except.error er
          | .ok (obj_type, data) =>
            if obj_type ≠ "blob" then Except.error (.assertionError "blob")
            else
              match read_file fs ip.2 with
              | .error er => Except.error er
              | .ok wc =>
                let dl := udiff (splitlines (bytesToStr data))
                  (splitlines (bytesToStr wc))
                  (ip.2 ++ " (index)") (ip.2 ++ " (working copy)")
                Except.ok (acc ++ dl ++
                  (if ip.1 < changed.length - 1 then [sepLine] else []))) [])

/-- Altering one byte of a serialized index (the source byte at offset `i`
is replaced by a different value; positions past the end are unchanged). -/
def alterByte (b : ByteList) (i : Nat) : ByteList :=
  b.take i ++ (match b.drop i with
    | [] => []
    | x :: r => (x + 1) % 256 :: r)

/-- After a write, the written file is found with its new contents. -/
theorem FS.lookupFile_writeFile (fs : FS) (p : String) (d : ByteList) :
    (fs.writeFile p d).lookupFile p = some d := by
  simp [FS.lookupFile, FS.writeFile]

/-- Fact: `mkdirs` leaves the regular files untouched. -/
theorem FS.files_mkdirs (fs : FS) (d : String) : (fs.mkdirs d).files = fs.files := by
  simp only [FS.mkdirs]
  split <;> rfl

/-- Claim C1: the spec requires `get_status` to classify a tracked unmodified
path outside `changed`, a modified one inside `changed`, a missing one inside
`deleted` and an untracked one inside `new`.  The code instead raises
`ValueError: invalid mode: rr` on every working tree before classifying
anything, because `read_index` (called inside the walk loop) reads through
`read_file`; moreover the path-collection step truncates every walked path
`./x` to the two characters `./` (`path = path[:2]`), so even with reading
repaired the classification input is wrong. -/
theorem claim1_get_status_raises (sha1hex : ByteList → String)
    (sha1digest : ByteList → ByteList) (zcompress : ByteList → ByteList)
    (fs : FS) :
    get_status sha1hex sha1digest zcompress fs [(".", [], ["a.txt", "b.txt"])] =
      .error (.valueError "invalid mode: rr") ∧
    walk_paths "." ["a.txt", "b.txt"] [] = ["./"] :=
  ⟨rfl, rfl⟩

/-- Claim C2: the spec requires `decode (encode c k) = (k, c)`.  Storing the
empty blob succeeds, but reading any stored object back raises
`ValueError: invalid mode: rr` from `read_file` inside `read_object`, so the
round trip never returns `(k, c)`. -/
theorem claim2_object_roundtrip_broken (zcompress zdecompress : ByteList → ByteList) :
    read_object zdecompress
        (hash_object (fun _ => "aabbcc") zcompress (FS.mk [] []) [] "blob" true).2.1
        "aabbcc" = .error (.valueError "invalid mode: rr") ∧
    (Except.error (PyErr.valueError "invalid mode: rr") :
      Except PyErr (String × ByteList)) ≠ .ok ("blob", []) :=
  ⟨rfl, by simp⟩

/-- Claim C3: the spec requires `load (serialize entries) = entries`.
Whatever bytes `serialize` produces, `read_index` on a filesystem whose index
file holds those bytes raises `ValueError: invalid mode: rr` (the invalid
open mode fires before the contents are ever looked at), so it never returns
an entry list. -/
theorem claim3_index_load_never_returns (sha1digest : ByteList → ByteList)
    (b : ByteList) (entries : List IndexEntry) :
    read_index sha1digest (FS.mk [] [(".git/index", b)]) =
      .error (.valueError "invalid mode: rr") ∧
    (Except.error (PyErr.valueError "invalid mode: rr") :
      Except PyErr (List IndexEntry)) ≠ .ok entries :=
  ⟨read_index_eq_error sha1digest _, by simp⟩

/-- Claim C4: the spec requires a flipped byte to make `load` fail with the
checksum mismatch.  `read_index` does fail on the altered file, but with
`ValueError: invalid mode: rr` raised before a single byte is read; the
checksum comparison (the `invalid index checksum` assertion) is unreachable. -/
theorem claim4_no_checksum_check (sha1digest : ByteList → ByteList)
    (b : ByteList) (i : Nat) :
    read_index sha1digest (FS.mk [] [(".git/index", alterByte b i)]) =
      .error (.valueError "invalid mode: rr") ∧
    PyErr.valueError "invalid mode: rr" ≠
      PyErr.assertionError "invalid index checksum" :=
  ⟨read_index_eq_error sha1digest _, by simp⟩

/-- Claim C5 counterexample: with one stored object in bucket `ab`, the
prefix `cd00` matches zero stored ids, yet `find_object` raises
`FileNotFoundError` from `os.listdir` on the missing bucket directory
`.git/objects/cd` instead of the `object ... not found` `ValueError`. -/
theorem claim5_counterexample :
    find_object (FS.mk [".git/objects/ab"] [(".git/objects/ab/c123", [])]) "cd00" =
      .error (.fileNotFoundError ".git/objects/cd") ∧
    (Except.error (PyErr.fileNotFoundError ".git/objects/cd") :
      Except PyErr String) ≠ .error (.valueError "object cd00 not found") :=
  ⟨rfl, by simp⟩

/-- Claim C5, amended: a prefix shorter than 2 characters raises the
invalid-prefix `ValueError`; when the 2-character bucket directory does not
exist (no stored id shares the first two characters) the lookup raises
`FileNotFoundError` from `os.listdir`; when the bucket exists, zero matching
names raise the not-found `ValueError`, two or more raise the ambiguity
`ValueError`, and a unique match returns that object's path. -/
theorem claim5_taxonomy (fs : FS) (p : String) :
    (p.length < 2 →
      find_object fs p =
        .error (.valueError "hash prefix must be 2 or more characters")) ∧
    (2 ≤ p.length →
      ((".git/objects/" ++ strTake p 2) ∉ fs.dirs →
        find_object fs p =
          .error (.fileNotFoundError (".git/objects/" ++ strTake p 2))) ∧
      (∀ names, fs.listdir (".git/objects/" ++ strTake p 2) = .ok names →
        (names.filter (fun n => strStartsWith n (strDropN p 2)) = [] →
          find_object fs p =
            .error (.valueError ("object " ++ p ++ " not found"))) ∧
        (2 ≤ (names.filter (fun n => strStartsWith n (strDropN p 2))).length →
          find_object fs p =
            .error (.valueError ("multiple objects with preifx " ++ p))) ∧
        (∀ o, names.filter (fun n => strStartsWith n (strDropN p 2)) = [o] →
          find_object fs p = .ok (".git/objects/" ++ strTake p 2 ++ "/" ++ o)))) := by
  constructor
  · intro hp
    simp [find_object, hp]
  · intro hp
    have hp' : ¬ p.length < 2 := by omega
    constructor
    · intro hc
      simp [find_object, hp', FS.listdir, hc]
    · intro names hnames
      refine ⟨?_, ?_, ?_⟩
      · intro hfil
        simp [find_object, hp', hnames, hfil]
      · intro hlen
        rcases hv : names.filter (fun n => strStartsWith n (strDropN p 2)) with
          _ | ⟨a, _ | ⟨c, t⟩⟩
        · rw [hv] at hlen; simp at hlen
        · rw [hv] at hlen; simp at hlen
        · simp [find_object, hp', hnames, hv]
      · intro o hfil
        simp [find_object, hp', hnames, hfil]

/-- Witness for the amended C5: on a store holding `abc123` and `abc999`, a
one-character prefix is rejected, `abc` is ambiguous, and `abc1` resolves to
the unique object path. -/
theorem claim5_taxonomy_witness :
    find_object
        (FS.mk [".git/objects/ab"]
          [(".git/objects/ab/c123", []), (".git/objects/ab/c999", [])]) "a" =
      .error (.valueError "hash prefix must be 2 or more characters") ∧
    find_object
        (FS.mk [".git/objects/ab"]
          [(".git/objects/ab/c123", []), (".git/objects/ab/c999", [])]) "abc" =
      .error (.valueError "multiple objects with preifx abc") ∧
    find_object
        (FS.mk [".git/objects/ab"]
          [(".git/objects/ab/c123", []), (".git/objects/ab/c999", [])]) "abc1" =
      .ok ".git/objects/ab/c123" := by
  refine ⟨?_, ?_, ?_⟩
  · exact (claim5_taxonomy _ "a").1 (by decide)
  · exact (((claim5_taxonomy _ "abc").2 (by decide)).2 ["c123", "c999"]
      (by rfl)).2.1 (by decide)
  · exact (((claim5_taxonomy _ "abc1").2 (by decide)).2 ["c123", "c999"]
      (by rfl)).2.2 "c123" (by rfl)

/-- Claim C6: the spec requires a unified diff for a changed file.  `diff`
calls `get_status`, which raises `ValueError: invalid mode: rr` on every
working tree, so `diff` raises before producing any output. -/
theorem claim6_diff_raises (sha1hex : ByteList → String)
    (sha1digest : ByteList → ByteList) (zcompress zdecompress : ByteList → ByteList)
    (udiff : List String → List String → String → String → List String) (fs : FS) :
    diff sha1hex sha1digest zcompress zdecompress udiff fs
      [(".", [], ["a.txt"])] = .error (.valueError "invalid mode: rr") :=
  rfl

/-- Claim C7: hashing identical `(content, kind)` twice yields the identical
hex id whatever the write flags are, and across the two calls at most one
object file is written: if the first call wrote, the object exists and the
second call's `os.path.exists` check skips the write; overwriting never
happens. -/
theorem claim7_hash_object_idempotent (sha1hex : ByteList → String)
    (zcompress : ByteList → ByteList) (fs : FS) (data : ByteList)
    (obj_type : String) (w1 w2 : Bool) :
    (hash_object sha1hex zcompress fs data obj_type w1).1 =
      (hash_object sha1hex zcompress
        (hash_object sha1hex zcompress fs data obj_type w1).2.1
        data obj_type w2).1 ∧
    (hash_object sha1hex zcompress fs data obj_type w1).2.2 +
      (hash_object sha1hex zcompress
        (hash_object sha1hex zcompress fs data obj_type w1).2.1
        data obj_type w2).2.2 ≤ 1 := by
  cases w1 <;> cases w2 <;>
    simp only [hash_object, Bool.false_eq_true, reduceIte]
  · exact ⟨by simp, by norm_num⟩
  · split <;> exact ⟨by simp, by norm_num⟩
  · split <;> exact ⟨by simp, by norm_num⟩
  · split
    · refine ⟨?_, ?_⟩ <;> simp [FS.lookupFile_writeFile]
    · exact ⟨by simp, by norm_num⟩

/-- Claim C8 counterexample: for the flags value `0x3000` (bits 12 and 13
set, bits 14 and 15 clear), the stage computed by `ls_files`
(`(flags >> 12) & 3`, line 128) is 3, while the top two bits after a 14-bit
shift are 0 — so the displayed stage is not the value claimed. -/
theorem claim8_counterexample :
    stageOf 12288 = 3 ∧ 12288 >>> 14 = 0 ∧ stageOf 12288 ≠ 12288 >>> 14 := by
  decide

/-- Claim C8, amended: the stage number `ls_files` computes for an entry is
`(flags >> 12) & 3`, i.e. the two bits at positions 12 and 13
(`flags / 2^12 % 2^2`), not the top two bits after a 14-bit shift; moreover
the listing itself never displays anything because `read_index` raises the
invalid-mode `ValueError` from `read_file` first. -/
theorem claim8_stage_is_bits_12_13 (sha1digest : ByteList → ByteList)
    (fs : FS) (details : Bool) (e : IndexEntry) :
    stageOf e.flags = e.flags / 2 ^ 12 % 2 ^ 2 ∧
    ls_files sha1digest fs details = .error (.valueError "invalid mode: rr") := by
  constructor
  · show e.flags >>> 12 &&& 3 = _
    rw [Nat.shiftRight_eq_div_pow]
    simpa using Nat.and_pow_two_sub_one_eq_mod (e.flags / 2 ^ 12) 2
  · rfl

/-- Claim C9: `read_file` raises `ValueError` (invalid mode `"rr"`) for every
path before returning any data; consequently `read_index` always raises it
(its `FileNotFoundError` handler catches nothing, not even a missing index
file), `read_object` never returns a result, and `get_status` and `diff`
raise it on every non-empty directory walk. -/
theorem claim9_read_pipeline_broken (sha1hex : ByteList → String)
    (sha1digest : ByteList → ByteList) (zcompress zdecompress : ByteList → ByteList)
    (udiff : List String → List String → String → String → List String) :
    (∀ fs p, read_file fs p = .error (.valueError "invalid mode: rr")) ∧
    (∀ fs, read_index sha1digest fs = .error (.valueError "invalid mode: rr")) ∧
    (∀ fs pre r, read_object zdecompress fs pre ≠ .ok r) ∧
    (∀ fs walk, walk ≠ [] →
      get_status sha1hex sha1digest zcompress fs walk =
        .error (.valueError "invalid mode: rr")) ∧
    (∀ fs walk, walk ≠ [] →
      diff sha1hex sha1digest zcompress zdecompress udiff fs walk =
        .error (.valueError "invalid mode: rr")) := by
  refine ⟨read_file_eq_error, read_index_eq_error sha1digest, ?_, ?_, ?_⟩
  · intro fs pre r h
    rw [read_object] at h
    cases hf : find_object fs pre with
    | error e => rw [hf] at h; simp at h
    | ok path => rw [hf] at h; simp [read_file_eq_error] at h
  · intro fs walk hne
    cases walk with
    | nil => exact absurd rfl hne
    | cons head tail =>
      obtain ⟨root, dirs, files⟩ := head
      rfl
  · intro fs walk hne
    cases walk with
    | nil => exact absurd rfl hne
    | cons head tail =>
      obtain ⟨root, dirs, files⟩ := head
      rfl

/-- Witness for C9 at a concrete input: the smallest real walk (the working
root with no files) already makes `get_status` raise the invalid-mode
`ValueError`. -/
theorem claim9_read_pipeline_broken_witness :
    get_status (fun _ => "") (fun _ => []) (fun b => b) (FS.mk [] [])
      [(".", [], [])] = .error (.valueError "invalid mode: rr") :=
  (claim9_read_pipeline_broken (fun _ => "") (fun _ => []) (fun b => b)
    (fun b => b) (fun _ _ _ _ => [])).2.2.2.1 (FS.mk [] [])
    [(".", [], [])] (by simp)

/-- The filesystem fixture for claim C10: one stored object in bucket `ab`
whose (here uncompressed) payload `"tree 0\x00"` declares kind `tree` with
empty content. -/
def fsTree : FS :=
  FS.mk [".git/objects/ab"]
    [(".git/objects/ab/cdef", [116, 114, 101, 101, 32, 48, 0])]

/-- Claim C10 counterexample: for a stored object of kind `tree`,
`cat_file` in mode `pretty` fails with the invalid-mode `ValueError` raised
by `read_file` inside `read_object` — not with the `NameError` for the
undefined `read_tree` — and prints nothing. -/
theorem claim10_counterexample :
    cat_file (fun b => b) fsTree "pretty" "abcdef" =
      .error (.valueError "invalid mode: rr") ∧
    (Except.error (PyErr.valueError "invalid mode: rr") :
      Except PyErr (List String)) ≠
      .error (.nameError "name read_tree is not defined") ∧
    bytesToStr ([116, 114, 101, 101, 32, 48, 0].take 4) = "tree" := by
  refine ⟨rfl, by simp, rfl⟩

/-- Claim C10, amended: for every object that `find_object` resolves —
trees included — `cat_file` in mode `pretty` fails with the invalid-mode
`ValueError` from `read_file` inside `read_object` and prints no entry
lines; the tree branch that would call the undefined `read_tree` (which
would raise `NameError`) is never reached. -/
theorem claim10_pretty_tree_value_error (zdecompress : ByteList → ByteList)
    (fs : FS) (pre path : String) (h : find_object fs pre = .ok path) :
    cat_file zdecompress fs "pretty" pre =
      .error (.valueError "invalid mode: rr") := by
  simp only [cat_file, read_object, h, read_file_eq_error]

/-- Witness for the amended C10 at the tree fixture. -/
theorem claim10_pretty_tree_value_error_witness :
    cat_file (fun b => b) fsTree "pretty" "ab" =
      .error (.valueError "invalid mode: rr") :=
  claim10_pretty_tree_value_error (fun b => b) fsTree "ab"
    ".git/objects/ab/cdef" (by rfl)

end PyGit
